import Mathlib

/-!
Verification of the scaffold/teardown engine of this repository: a shallow
embedding of the teardown command (DESTROY.py) and of the launch pipeline
(IGNITION.py).

Filesystem paths are modelled as component lists; the source renders them as
slash-separated strings (for example "features/steps/homepage_steps.py"
becomes ["features", "steps", "homepage_steps.py"]).  A filesystem is the
finite list of paths that currently exist.  External commands invoked by the
pipeline are given success flags by an oracle; a run of a pipeline function
yields the ordered trace of its observable actions together with an optional
abort exit code (none means the function fell through normally, some c means
the process aborts with exit code c).
-/

namespace Scaffold

abbrev FsPath := List String

abbrev Fs := List FsPath

/-- DESTROY.remove_if_exists: if the path exists as a file remove the file,
if it exists as a directory remove it recursively, otherwise do nothing.
On a real filesystem a file has no descendants and a directory removal takes
the whole subtree with it, so both existing branches are the same operation
on the path-set model: when the path is present, drop every path that has it
as a prefix; when it is absent, leave the filesystem unchanged. -/
def remove_if_exists (path : FsPath) (fs : Fs) : Fs :=
  if fs.contains path then fs.filter (fun p => !(path.isPrefixOf p)) else fs

/-- One removal loop of DESTROY.destroy: apply remove_if_exists to each
top-level name in turn (the source runs one such loop over the file names
and a second one over the directory names). -/
def removeEach (names : List String) (fs : Fs) : Fs :=
  names.foldl (fun s n => remove_if_exists [n] s) fs

/-- The files_to_remove list of DESTROY.destroy. -/
def filesToRemove : List String :=
  ["manage.py", "requirements.txt", "setup.py", "behave.ini", "db.sqlite3",
   "pytest.ini", ".gitignore"]

/-- The dirs_to_remove list of DESTROY.destroy. -/
def dirsToRemove (appName : String) : List String :=
  ["venv", "tests", "features", appName, "config"]

/-- Observable outcome of one invocation of DESTROY.destroy: the resulting
filesystem, the process exit code, and whether the run was cancelled by a
mismatched confirmation. -/
structure DestroyResult where
  fs : Fs
  exitCode : Nat
  cancelled : Bool
deriving DecidableEq, Repr

/-- DESTROY.destroy with its two prompted inputs (app name, confirmation)
as arguments.  On a confirmation other than the exact token "DESTROY" it
raises typer.Exit() (exit code 0) without touching the filesystem; otherwise
it removes the candidate files and then the candidate directories and ends
with exit code 0. -/
def destroy (appName confirmation : String) (fs : Fs) : DestroyResult :=
  if confirmation != "DESTROY" then
    { fs := fs, exitCode := 0, cancelled := true }
  else
    { fs := removeEach (dirsToRemove appName) (removeEach filesToRemove fs),
      exitCode := 0, cancelled := false }

/-!
## The launch pipeline (IGNITION.py)

Side effects are recorded as an ordered trace of actions.  subprocess calls
appear as runCmd with the argv the source builds (sys.executable is written
as "python"; the posix branch of the os.name tests is taken, as in the
venv_pip / venv_django / venv_python variables of the source).  Console
output, prompts and sleeps have no filesystem effect and are not recorded.
Each external command is given a success flag by an Oracle; a failing
checked command raises (subprocess.CalledProcessError or typer.Exit(1)),
which the top-level handler of launch turns into exit code 1 either way, so
an abort is modelled as the exit code some 1.
-/

/-- One observable side-effecting step of the pipeline. -/
inductive Action where
  | runCmd : List String → Action
  | makeDirs : FsPath → Action
  | writeFile : FsPath → String → Action
  | copyFile : FsPath → FsPath → Action
deriving DecidableEq

abbrev Trace := List Action

/-- Outcome of running a pipeline fragment: its action trace, plus none if
it fell through normally or some c if the process aborts with exit code c. -/
abbrev RunOut := Trace × Option Nat

/-- Sequencing with abort propagation: if the first fragment aborted, the
second never runs. -/
def seqRun (r s : RunOut) : RunOut :=
  match r with
  | (tr, some c) => (tr, some c)
  | (tr, none) => (tr ++ s.1, s.2)

/-- Success flags for the external commands the pipeline invokes (package
installs are keyed by the requirement string being installed). -/
structure Oracle where
  venvOk : Bool
  pipOk : String → Bool
  startprojectOk : Bool
  startappOk : Bool
  gitInitOk : Bool
  migrateOk : Bool
  createsuperuserOk : Bool

/-- Every external command succeeds: the fully successful launch. -/
def okAll : Oracle :=
  { venvOk := true, pipOk := fun _ => true, startprojectOk := true,
    startappOk := true, gitInitOk := true, migrateOk := true,
    createsuperuserOk := true }

/-- Everything succeeds except the prerequisite Django install. -/
def okDjangoFails : Oracle :=
  { okAll with pipOk := fun pkg => !(pkg == "django>=4.2.0") }

/-- Everything succeeds except the second package (python-dotenv). -/
def okSecondPackageFails : Oracle :=
  { okAll with pipOk := fun pkg => !(pkg == "python-dotenv") }

/-- Everything succeeds except git init. -/
def okGitInitFails : Oracle :=
  { okAll with gitInitOk := false }

def venv_pip : String := "./venv/bin/pip"

def venv_django : String := "./venv/bin/django-admin"

def venv_python : String := "./venv/bin/python"

/-- IGNITION.create_virtual_environment: subprocess.run([sys.executable,
"-m", "venv", "venv"], check=True). -/
def create_virtual_environment (o : Oracle) : RunOut :=
  ([Action.runCmd ["python", "-m", "venv", "venv"]],
    if o.venvOk then none else some 1)

/-- The requirements list of IGNITION.install_dependencies. -/
def requirementsList : List String :=
  ["django>=4.2.0", "python-dotenv", "social-auth-app-django", "django-allauth",
   "selenium>=4.0.0", "behave>=1.2.6", "behave-django>=1.4.0", "pytest-django>=4.5.0",
   "webdriver-manager", "coverage", "typer", "rich", "pytest", "pytest-django"]

/-- The loop over requirements[1:] in IGNITION.install_dependencies: install
each remaining package in order, stopping at (and re-raising) the first
failure.  Returns the commands run and whether the loop completed. -/
def installRest (pipOk : String → Bool) : List String → Trace × Bool
  | [] => ([], true)
  | pkg :: rest =>
    if pipOk pkg then
      ((Action.runCmd [venv_pip, "install", pkg]) :: (installRest pipOk rest).1,
        (installRest pipOk rest).2)
    else
      ([Action.runCmd [venv_pip, "install", pkg]], false)

/-- The write of requirements.txt performed in the finally block of
IGNITION.install_dependencies: "\n".join(requirements). -/
def requirementsFileWrite : Action :=
  Action.writeFile ["requirements.txt"] (String.intercalate ("\n") requirementsList)

/-- IGNITION.install_dependencies.  Django is installed first, outside the
try/finally; on its failure the function raises typer.Exit(1) immediately.
Only afterwards does the loop over the remaining packages run inside the
try whose finally block writes requirements.txt (so that write happens both
on success and on a later-package failure). -/
def install_dependencies (o : Oracle) : RunOut :=
  if o.pipOk ("django>=4.2.0") then
    (Action.runCmd [venv_pip, "install", "django>=4.2.0"] ::
        ((installRest o.pipOk (requirementsList.drop 1)).1 ++ [requirementsFileWrite]),
      if (installRest o.pipOk (requirementsList.drop 1)).2 then none else some 1)
  else
    ([Action.runCmd [venv_pip, "install", "django>=4.2.0"]], some 1)

/-- tests/conftest.py content. -/
def conftest_content : String :=
  "pytest_plugins = [\n    \"pytest_django\",\n]\n"

/-- tests/test_views.py content. -/
def test_views_content : String :=
  "import pytest\nfrom django.test import Client\n\n@pytest.mark.django_db\ndef test_home_page():\n    client = Client()\n    response = client.get(\x27/\x27)\n    assert response.status_code == 200\n"

/-- pytest.ini content: pytest_ini_content of IGNITION.setup_django_project,
with the two format placeholders both bound to the project name. -/
def pytest_ini_content (projectName : String) : String :=
  "[pytest]\nDJANGO_SETTINGS_MODULE = " ++ (projectName ++ ".settings") ++ "\npython_files = tests.py test_*.py *_tests.py\naddopts =\x20--ds=" ++ (projectName ++ ".settings") ++ "\ntestpaths = tests\n"

/-- setup.py content. -/
def setup_py_content (projectName : String) : String :=
  "from setuptools import setup, find_packages\n\nsetup(\n    name=\"" ++ projectName ++ "\",\n    version=\"0.1\",\n    packages=find_packages(),\n    install_requires=[\n        \x27django>=4.2.0\x27,\n        \x27python-dotenv\x27,\n        \x27social-auth-app-django\x27,\n        \x27django-allauth\x27,\n        \x27selenium>=4.0.0\x27,\n        \x27behave>=1.2.6\x27,\n        \x27behave-django>=1.4.0\x27,\n        \x27pytest-django>=4.5.0\x27,\n        \x27webdriver-manager\x27,\n        \x27coverage\x27,\n    ],\n)\n"

/-- services/base.py content. -/
def base_py_content : String :=
  "from typing import Any\nimport requests\nfrom .exceptions import ServiceException\n\nclass BaseService:\n    def __init__(self):\n        self.session = requests.Session()\n    \n    def handle_response(self, response: requests.Response) -> Any:\n        try:\n            response.raise_for_status()\n            return response.json()\n        except Exception as e:\n            raise ServiceException(f\"Service error: \x7bstr(e)\x7d\")\n"

/-- services/exceptions.py content. -/
def exceptions_py_content : String :=
  "class ServiceException(Exception):\n    \"\"\"Base exception for service errors\"\"\"\n    pass\n"

/-- The first content written to the urls.py of the main app (the write
commented as creating the app urls with proper namespacing). -/
def app_urls_content (projectName : String) : String :=
  "from django.urls import path\nfrom . import views\n\napp_name = \x27" ++ projectName ++ "\x27\n\nurlpatterns = [\n    # Add your URL patterns here\n]\n"

/-- The second content written to the urls.py of the main app (the write
commented as updating the urls.py of the project). -/
def project_urls_content (projectName : String) : String :=
  "\"\"\"\nURL configuration for " ++ projectName ++ " project.\n\"\"\"\nfrom django.contrib import admin\nfrom django.urls import path, include\n\nurlpatterns = [\n    path(\x27admin/\x27, admin.site.urls),\n    path(\x27\x27, include(\x27" ++ projectName ++ ".urls\x27, namespace=\x27" ++ projectName ++ "\x27)),\n]\n"

/-- config/settings.py content (the inline settings template, with the
project name substituted and the doubled braces of the Python format string
rendered as single braces). -/
def project_settings_content (projectName : String) : String :=
  "\"\"\"\nDjango settings for " ++ projectName ++ " project.\n\"\"\"\nfrom pathlib import Path\n\n# Build paths inside the project like this: BASE_DIR / \x27subdir\x27.\nBASE_DIR = Path(__file__).resolve().parent.parent\n\n# SECURITY WARNING: keep the secret key used in production secret!\nSECRET_KEY = \x27django-insecure-CHANGE-THIS-IN-PRODUCTION\x27\n\n# SECURITY WARNING: don\x27t run with debug turned on in production!\nDEBUG = True\n\nALLOWED_HOSTS = []\n\n# Application definition\nINSTALLED_APPS = [\n    \x27django.contrib.admin\x27,\n    \x27django.contrib.auth\x27,\n    \x27django.contrib.contenttypes\x27,\n    \x27django.contrib.sessions\x27,\n    \x27django.contrib.messages\x27,\n    \x27django.contrib.staticfiles\x27,\n    \x27django.contrib.sites\x27,  # Required for allauth\n    \n    # Third party\n    \x27allauth\x27,\n    \x27allauth.account\x27,\n    \x27allauth.socialaccount\x27,\n    \x27allauth.socialaccount.providers.google\x27,\n    \x27behave_django\x27,\n    \n    # Local apps\n    \x27" ++ projectName ++ "\x27,  # Local app\n]\n\nMIDDLEWARE = [\n    \x27django.middleware.security.SecurityMiddleware\x27,\n    \x27django.contrib.sessions.middleware.SessionMiddleware\x27,\n    \x27django.middleware.common.CommonMiddleware\x27,\n    \x27django.middleware.csrf.CsrfViewMiddleware\x27,\n    \x27django.contrib.auth.middleware.AuthenticationMiddleware\x27,\n    \x27django.contrib.messages.middleware.MessageMiddleware\x27,\n    \x27django.middleware.clickjacking.XFrameOptionsMiddleware\x27,\n    \x27allauth.account.middleware.AccountMiddleware\x27,  # Required for django-allauth\n]\n\nROOT_URLCONF = \x27config.urls\x27\n\nTEMPLATES = [\n    \x7b\n        \x27BACKEND\x27: \x27django.template.backends.django.DjangoTemplates\x27,\n        \x27DIRS\x27: [],\n        \x27APP_DIRS\x27: True,\n        \x27OPTIONS\x27: \x7b\n            \x27context_processors\x27: [\n                \x27django.template.context_processors.debug\x27,\n                \x27django.template.context_processors.request\x27,\n                \x27django.contrib.auth.context_processors.auth\x27,\n                \x27django.contrib.messages.context_processors.messages\x27,\n            ],\n        \x7d,\n    \x7d,\n]\n\nWSGI_APPLICATION = \x27config.wsgi.application\x27\n\nDATABASES = \x7b\n    \x27default\x27: \x7b\n        \x27ENGINE\x27: \x27django.db.backends.sqlite3\x27,\n        \x27NAME\x27: BASE_DIR / \x27db.sqlite3\x27,\n    \x7d\n\x7d\n\nAUTH_PASSWORD_VALIDATORS = [\n    \x7b\x27NAME\x27: \x27django.contrib.auth.password_validation.UserAttributeSimilarityValidator\x27\x7d,\n    \x7b\x27NAME\x27: \x27django.contrib.auth.password_validation.MinimumLengthValidator\x27\x7d,\n    \x7b\x27NAME\x27: \x27django.contrib.auth.password_validation.CommonPasswordValidator\x27\x7d,\n    \x7b\x27NAME\x27: \x27django.contrib.auth.password_validation.NumericPasswordValidator\x27\x7d,\n]\n\nAUTHENTICATION_BACKENDS = [\n    \x27django.contrib.auth.backends.ModelBackend\x27,\n    \x27allauth.account.auth_backends.AuthenticationBackend\x27,\n]\n\n# OAuth2 Settings\nSOCIALACCOUNT_PROVIDERS = \x7b\n    \x27google\x27: \x7b\n        \x27APP\x27: \x7b\n            \x27client_id\x27: \x27your-client-id\x27,\n            \x27secret\x27: \x27your-secret\x27,\n            \x27key\x27: \x27\x27\n        \x7d,\n        \x27SCOPE\x27: [\n            \x27profile\x27,\n            \x27email\x27,\n        ],\n        \x27AUTH_PARAMS\x27: \x7b\n            \x27access_type\x27: \x27online\x27,\n        \x7d\n    \x7d\n\x7d\n\nSITE_ID = 1\nLOGIN_REDIRECT_URL = \x27/\x27\nLOGOUT_REDIRECT_URL = \x27/\x27\n\nLANGUAGE_CODE = \x27en-us\x27\nTIME_ZONE = \x27UTC\x27\nUSE_I18N = True\nUSE_TZ = True\n\nSTATIC_URL = \x27static/\x27\nDEFAULT_AUTO_FIELD = \x27django.db.models.BigAutoField\x27\n\n# Testing Settings\nBEHAVE_DJANGO_TESTSERVER = True\nTEST_RUNNER = \x27django.test.runner.DiscoverRunner\x27\n"

/-- features/environment.py content. -/
def environment_py_content : String :=
  "from selenium import webdriver\nfrom selenium.webdriver.chrome.options import Options\nfrom selenium.webdriver.chrome.service import Service\nfrom webdriver_manager.chrome import ChromeDriverManager\nfrom django.contrib.staticfiles.testing import StaticLiveServerTestCase\n\nclass TestServer(StaticLiveServerTestCase):\n    @classmethod\n    def setup_class(cls):\n        super().setUpClass()\n        return cls\n\ndef before_all(context):\n    # Set up Django test environment with static file serving\n    context.server = TestServer.setup_class()\n    context.server_url = context.server.live_server_url\n    \n    # Configure headless Chrome\n    chrome_options = Options()\n    chrome_options.add_argument(\x27--headless\x27)  # Run in headless mode\n    service = Service(ChromeDriverManager().install())\n    context.browser = webdriver.Chrome(service=service, options=chrome_options)\n    context.browser.implicitly_wait(10)\n\ndef after_all(context):\n    context.browser.quit()\n    if hasattr(context, \x27server\x27):\n        context.server.tearDownClass()\n\ndef before_scenario(context, scenario):\n    # Reset database state\n    from django.core.management import call_command\n    call_command(\x27flush\x27, verbosity=0, interactive=False)\n"

/-- features/homepage.feature content. -/
def homepage_feature_content : String :=
  "Feature: Homepage\n  Scenario: Visit the homepage\n    When I visit the homepage\n    Then I should see the page load successfully\n"

/-- features/steps/homepage_steps.py content. -/
def steps_content : String :=
  "from behave import when, then\nfrom selenium.webdriver.common.by import By\n\n@when(\x27I visit the homepage\x27)\ndef step_impl(context):\n    context.browser.get(context.server_url)\n\n@then(\x27I should see the page load successfully\x27)\ndef step_impl(context):\n    assert context.browser.current_url == context.server_url + \"/\"\n"

/-- The base template written under templates. -/
def base_template_content : String :=
  "\x7b% load static %\x7d\n<!DOCTYPE html>\n<html>\n<head>\n    <title>\x7b% block title %\x7d\x7b% endblock %\x7d</title>\n    <link rel=\"stylesheet\" href=\"\x7b% static \x27main_app/css/style.css\x27 %\x7d\">\n</head>\n<body>\n    \x7b% block content %\x7d\n    \x7b% endblock %\x7d\n    <script src=\"\x7b% static \x27main_app/js/main.js\x27 %\x7d\"></script>\n</body>\n</html>\n"

/-- .gitignore content. -/
def gitignore_content : String :=
  "# Python\n__pycache__/\n*.py[cod]\n*$py.class\n*.so\n.Python\nbuild/\ndevelop-eggs/\ndist/\ndownloads/\neggs/\n.eggs/\nlib/\nlib64/\nparts/\nsdist/\nvar/\nwheels/\n*.egg-info/\n.installed.cfg\n*.egg\n\n# Django\n*.log\nlocal_settings.py\ndb.sqlite3\ndb.sqlite3-journal\nmedia/\n\n# Virtual Environment\nvenv/\nENV/\n\n# IDE\n.idea/\n.vscode/\n*.swp\n*.swo\n\n# OS\n.DS_Store\nThumbs.db\n\n# Test coverage\nhtmlcov/\n.tox/\n.coverage\n.coverage.*\n.cache\ncoverage.xml\n*.cover\n"

/-- behave.ini content. -/
def behave_ini_content : String :=
  "[behave]\npaths = features\nsteps = features/steps\n"

/-- MISSION.md content, from the interactive branch of IGNITION.launch. -/
def mission_content (projectName goal : String) : String :=
  "# Mission Statement for " ++ projectName ++ "\n\n## GOAL\n" ++ goal ++ "\n\n## PROBLEM\n[Describe the specific problem or pain point your app addresses]\n\n## SOLUTION\n[Explain how your app solves the problem]\n\n## IMPLEMENTATION PLAN\n[Detail the technical approach and key features]\n\n## BENEFITS\n[List the key benefits and value proposition for users]\n"

/-- The block of directory creations and file writes of
IGNITION.setup_django_project between the startapp call and the git init
call, in source order (the two consecutive writes to the urls.py of the
main app are the writes at the app-urls comment and at the
update-project-urls comment of the source). -/
def structureWrites (projectName : String) : Trace :=
  [Action.makeDirs ["tests"],
   Action.writeFile ["tests", "__init__.py"] (""),
   Action.writeFile ["tests", "conftest.py"] conftest_content,
   Action.writeFile ["tests", "test_views.py"] test_views_content,
   Action.writeFile ["pytest.ini"] (pytest_ini_content projectName),
   Action.writeFile ["setup.py"] (setup_py_content projectName),
   Action.makeDirs [projectName, "services"],
   Action.makeDirs [projectName, "services", "external"],
   Action.writeFile [projectName, "services", "__init__.py"] (""),
   Action.writeFile [projectName, "services", "base.py"] base_py_content,
   Action.writeFile [projectName, "services", "exceptions.py"] exceptions_py_content,
   Action.writeFile [projectName, "services", "external", "__init__.py"] (""),
   Action.writeFile [projectName, "urls.py"] (app_urls_content projectName),
   Action.writeFile [projectName, "urls.py"] (project_urls_content projectName),
   Action.writeFile ["config", "settings.py"] (project_settings_content projectName),
   Action.makeDirs ["features", "steps"],
   Action.writeFile ["features", "__init__.py"] (""),
   Action.writeFile ["features", "environment.py"] environment_py_content,
   Action.writeFile ["features", "homepage.feature"] homepage_feature_content,
   Action.writeFile ["features", "steps", "homepage_steps.py"] steps_content,
   Action.writeFile ["features", "steps", "__init__.py"] (""),
   Action.makeDirs [projectName, "templates", projectName],
   Action.makeDirs [projectName, "static", projectName, "css"],
   Action.makeDirs [projectName, "static", projectName, "js"],
   Action.makeDirs [projectName, "static", projectName, "images"],
   Action.writeFile [projectName, "templates", projectName, "base.html"] base_template_content,
   Action.writeFile [projectName, "static", projectName, "css", "style.css"] ("/* Add your styles here */\n"),
   Action.writeFile [projectName, "static", projectName, "js", "main.js"] ("// Add your JavaScript here\n"),
   Action.writeFile [".gitignore"] gitignore_content]

/-- IGNITION.setup_django_project.  startproject failure is caught and
turned into typer.Exit(1); startapp and git init are invoked with
check=True and no handler, so their failure propagates (exit 1 via the
top-level handler of launch); migrate and createsuperuser failures are
caught and turned into typer.Exit(1); behave.ini is written last, after a
successful createsuperuser. -/
def setup_django_project (projectName : String) (o : Oracle) : RunOut :=
  seqRun ([Action.runCmd [venv_django, "startproject", "config", "."]],
      if o.startprojectOk then none else some 1)
    (seqRun ([Action.runCmd [venv_python, "manage.py", "startapp", projectName]],
        if o.startappOk then none else some 1)
      (seqRun (structureWrites projectName, none)
        (seqRun ([Action.runCmd ["git", "init"]],
            if o.gitInitOk then none else some 1)
          (seqRun ([Action.runCmd [venv_python, "manage.py", "migrate"]],
              if o.migrateOk then none else some 1)
            (seqRun ([Action.runCmd [venv_python, "manage.py", "createsuperuser", "--noinput"]],
                if o.createsuperuserOk then none else some 1)
              ([Action.writeFile ["behave.ini"] behave_ini_content], none))))))

/-- The try block of IGNITION.launch (environment setup, dependency
install, structure generation, the copy of requirements.txt into the
project directory), followed by the non-fatal version check of the virtual
environment. -/
def launchPipeline (projectName : String) (o : Oracle) : RunOut :=
  seqRun (create_virtual_environment o)
    (seqRun (install_dependencies o)
      (seqRun (setup_django_project projectName o)
        (seqRun ([Action.copyFile ["requirements.txt"] [projectName, "requirements.txt"]], none)
          ([Action.runCmd [venv_python, "-V"]], none))))

/-- IGNITION.launch.  With the project name supplied as a command-line
argument the pipeline runs directly; with it omitted, the name and the
mission goal are prompted (modelled as the promptedName and goal
arguments) and MISSION.md is written before the pipeline starts. -/
def launch (arg : Option String) (promptedName goal : String) (o : Oracle) : RunOut :=
  match arg with
  | some projectName => launchPipeline projectName o
  | none =>
      seqRun ([Action.writeFile ["MISSION.md"] (mission_content promptedName goal)], none)
        (launchPipeline promptedName o)

/-- The file paths of the write actions of a trace, in order. -/
def writePathsOf (tr : Trace) : List FsPath :=
  tr.filterMap fun a =>
    match a with
    | Action.writeFile q _ => some q
    | _ => none

/-- All nonempty prefixes of a path: os.makedirs creates the directory and
every missing ancestor. -/
def dirPrefixes (p : FsPath) : List FsPath :=
  (List.range p.length).map fun i => p.take (i + 1)

/-- Modelled from the spec: the top-level filesystem artifacts produced by
the external tools the pipeline invokes, which are not code of this
repository (the venv module creates the environment directory, django-admin
startproject creates manage.py and the config directory, manage.py startapp
creates the directory named by the identifier, git init creates the VCS
metadata directory, manage.py migrate creates the database file), following
the persisted-state-layout section of the spec.  Granularity is the
top-level artifact: everything such a tool puts inside one of these
directories lies under it. -/
def cmdCreates (c : List String) : List FsPath :=
  if c = ["python", "-m", "venv", "venv"] then [["venv"]]
  else if c = ["./venv/bin/django-admin", "startproject", "config", "."] then
    [["manage.py"], ["config"]]
  else if c = ["git", "init"] then [[".git"]]
  else if c = ["./venv/bin/python", "manage.py", "migrate"] then [["db.sqlite3"]]
  else
    match c with
    | ["./venv/bin/python", "manage.py", "startapp", n] => [[n]]
    | _ => []

/-- The filesystem paths an action brings into existence. -/
def creations : Action → List FsPath
  | Action.runCmd c => cmdCreates c
  | Action.makeDirs p => dirPrefixes p
  | Action.writeFile p _ => [p]
  | Action.copyFile _ dst => [dst]

/-- All paths a trace brings into existence, in order. -/
def createdPathsOf (tr : Trace) : List FsPath :=
  (tr.map creations).flatten

/-- The paths created by a fully successful non-interactive launch of the
given identifier, written out explicitly (established below as equal to
createdPathsOf of the launch trace by definitional unfolding). -/
def cliCreated (a : String) : List FsPath :=
  [["venv"], ["requirements.txt"], ["manage.py"], ["config"], [a],
   ["tests"], ["tests", "__init__.py"], ["tests", "conftest.py"],
   ["tests", "test_views.py"], ["pytest.ini"], ["setup.py"],
   [a], [a, "services"], [a], [a, "services"], [a, "services", "external"],
   [a, "services", "__init__.py"], [a, "services", "base.py"],
   [a, "services", "exceptions.py"], [a, "services", "external", "__init__.py"],
   [a, "urls.py"], [a, "urls.py"], ["config", "settings.py"],
   ["features"], ["features", "steps"],
   ["features", "__init__.py"], ["features", "environment.py"],
   ["features", "homepage.feature"], ["features", "steps", "homepage_steps.py"],
   ["features", "steps", "__init__.py"],
   [a], [a, "templates"], [a, "templates", a],
   [a], [a, "static"], [a, "static", a], [a, "static", a, "css"],
   [a], [a, "static"], [a, "static", a], [a, "static", a, "js"],
   [a], [a, "static"], [a, "static", a], [a, "static", a, "images"],
   [a, "templates", a, "base.html"], [a, "static", a, "css", "style.css"],
   [a, "static", a, "js", "main.js"], [".gitignore"],
   [".git"], ["db.sqlite3"], ["behave.ini"], [a, "requirements.txt"]]

theorem mem_of_mem_remove_if_exists {path : FsPath} {fs : Fs} {p : FsPath}
    (h : p ∈ remove_if_exists path fs) : p ∈ fs := by
  unfold remove_if_exists at h
  split at h
  · exact List.mem_of_mem_filter h
  · exact h

theorem prefix_of_removed {path : FsPath} {fs : Fs} {p : FsPath}
    (hp : p ∈ fs) (h : p ∉ remove_if_exists path fs) :
    path.isPrefixOf p = true := by
  unfold remove_if_exists at h
  split at h
  · by_cases hpre : path.isPrefixOf p = true
    · exact hpre
    · exact absurd (List.mem_filter.mpr ⟨hp, by simp [hpre]⟩) h
  · exact absurd hp h

theorem not_mem_remove_if_exists_of_prefix {path : FsPath} {fs : Fs} {p : FsPath}
    (hin : path ∈ fs) (hpre : path.isPrefixOf p = true) :
    p ∉ remove_if_exists path fs := by
  unfold remove_if_exists
  rw [if_pos (List.elem_eq_true_of_mem hin)]
  intro hmem
  have := (List.mem_filter.mp hmem).2
  simp [hpre] at this

theorem removeEach_cons (m : String) (rest : List String) (fs : Fs) :
    removeEach (m :: rest) fs = removeEach rest (remove_if_exists [m] fs) := rfl

theorem mem_of_mem_removeEach {names : List String} {fs : Fs} {p : FsPath}
    (h : p ∈ removeEach names fs) : p ∈ fs := by
  induction names generalizing fs with
  | nil => exact h
  | cons m rest ih =>
    rw [removeEach_cons] at h
    exact mem_of_mem_remove_if_exists (ih h)

theorem covered_of_removed {names : List String} {fs : Fs} {p : FsPath}
    (hp : p ∈ fs) (h : p ∉ removeEach names fs) :
    ∃ n ∈ names, (([n] : FsPath)).isPrefixOf p = true := by
  induction names generalizing fs with
  | nil => exact absurd hp h
  | cons m rest ih =>
    rw [removeEach_cons] at h
    by_cases h1 : p ∈ remove_if_exists [m] fs
    · obtain ⟨n, hn, hpre⟩ := ih h1 h
      exact ⟨n, List.mem_cons_of_mem _ hn, hpre⟩
    · exact ⟨m, List.mem_cons_self _ _, prefix_of_removed hp h1⟩

theorem removeEach_kills {names : List String} {fs : Fs} {p : FsPath} {n : String}
    (hn : n ∈ names) (hfs : ([n] : FsPath) ∈ fs)
    (hpre : (([n] : FsPath)).isPrefixOf p = true) :
    p ∉ removeEach names fs := by
  induction names generalizing fs with
  | nil => cases hn
  | cons m rest ih =>
    rw [removeEach_cons]
    by_cases hmn : m = n
    · subst hmn
      have hgone : p ∉ remove_if_exists [m] fs :=
        not_mem_remove_if_exists_of_prefix hfs hpre
      intro hmem
      exact hgone (mem_of_mem_removeEach hmem)
    · have hn' : n ∈ rest := by
        cases hn with
        | head => exact absurd rfl hmn
        | tail _ h => exact h
      by_cases hkeep : ([n] : FsPath) ∈ remove_if_exists [m] fs
      · exact ih hn' hkeep
      · have := prefix_of_removed hfs hkeep
        simp [List.isPrefixOf] at this
        exact absurd this hmn

theorem head_not_mem_removeEach {names : List String} {fs : Fs} {n : String}
    (hn : n ∈ names) : ([n] : FsPath) ∉ removeEach names fs :=
  fun hmem =>
    removeEach_kills hn (mem_of_mem_removeEach hmem) (by simp [List.isPrefixOf]) hmem

theorem remove_if_exists_of_not_mem {path : FsPath} {fs : Fs}
    (h : path ∉ fs) : remove_if_exists path fs = fs := by
  unfold remove_if_exists
  rw [if_neg]
  simp [h]

theorem removeEach_noop {names : List String} {fs : Fs}
    (h : ∀ n ∈ names, ([n] : FsPath) ∉ fs) : removeEach names fs = fs := by
  induction names generalizing fs with
  | nil => rfl
  | cons m rest ih =>
    rw [removeEach_cons, remove_if_exists_of_not_mem (h m (List.mem_cons_self _ _))]
    exact ih fun n hn => h n (List.mem_cons_of_mem _ hn)

theorem destroy_confirmed_fs (a : String) (fs : Fs) :
    (destroy a "DESTROY" fs).fs =
      removeEach (filesToRemove ++ dirsToRemove a) fs := by
  simp [destroy, removeEach, List.foldl_append]

theorem destroy_removes (a : String) (fs : Fs) (p : FsPath) (n : String)
    (hn : n ∈ filesToRemove ++ dirsToRemove a)
    (hfs : ([n] : FsPath) ∈ fs)
    (hpre : (([n] : FsPath)).isPrefixOf p = true) :
    p ∉ (destroy a "DESTROY" fs).fs := by
  rw [destroy_confirmed_fs]
  exact removeEach_kills hn hfs hpre

/-- C1: for every identifier and every confirmation string other than the
exact token "DESTROY", teardown performs no filesystem mutation, reports
cancellation, and the process exits with code 0. -/
theorem C1_mismatched_confirmation_is_noop (a conf : String) (fs : Fs)
    (h : conf ≠ "DESTROY") :
    destroy a conf fs = { fs := fs, exitCode := 0, cancelled := true } := by
  simp [destroy, h]

theorem C1_witness :
    ("destroy" ≠ "DESTROY") ∧
      destroy "blog" "destroy" [["manage.py"], ["notes.txt"]] =
        { fs := [["manage.py"], ["notes.txt"]], exitCode := 0, cancelled := true } :=
  ⟨by decide, C1_mismatched_confirmation_is_noop "blog" "destroy" _ (by decide)⟩

/-- C2: a confirmed teardown removes only paths lying under the fixed
candidate set derived from the identifier (the seven candidate files and the
five candidate directories, among them the top-level directory named by the
identifier); every path that disappears sits under one of those names. -/
theorem C2_only_candidate_paths_removed (a : String) (fs : Fs) (p : FsPath)
    (hp : p ∈ fs) (hgone : p ∉ (destroy a "DESTROY" fs).fs) :
    ∃ n ∈ filesToRemove ++ dirsToRemove a, (([n] : FsPath)).isPrefixOf p = true := by
  rw [destroy_confirmed_fs] at hgone
  exact covered_of_removed hp hgone

theorem C2_witness :
    (["manage.py"] : FsPath) ∈ ([["manage.py"], ["notes.txt"]] : Fs) ∧
      (["manage.py"] : FsPath) ∉ (destroy "blog" "DESTROY" [["manage.py"], ["notes.txt"]]).fs ∧
      ∃ n ∈ filesToRemove ++ dirsToRemove "blog",
        (([n] : FsPath)).isPrefixOf ["manage.py"] = true :=
  ⟨by decide, by decide,
    C2_only_candidate_paths_removed "blog" [["manage.py"], ["notes.txt"]] ["manage.py"]
      (by decide) (by decide)⟩

/-- C4: teardown is idempotent.  A second confirmed run on the result of a
first confirmed run leaves the filesystem unchanged and again ends with exit
code 0 (absent candidate paths are skipped without error), and after the
first run every candidate top-level path is already absent. -/
theorem C4_teardown_idempotent (a : String) (fs : Fs) :
    destroy a "DESTROY" (destroy a "DESTROY" fs).fs =
      { fs := (destroy a "DESTROY" fs).fs, exitCode := 0, cancelled := false } ∧
    ∀ n ∈ filesToRemove ++ dirsToRemove a, ([n] : FsPath) ∉ (destroy a "DESTROY" fs).fs := by
  have habsent : ∀ n ∈ filesToRemove ++ dirsToRemove a,
      ([n] : FsPath) ∉ (destroy a "DESTROY" fs).fs := by
    intro n hn
    rw [destroy_confirmed_fs]
    exact head_not_mem_removeEach hn
  refine ⟨?_, habsent⟩
  have hfiles : ∀ n ∈ filesToRemove, ([n] : FsPath) ∉ (destroy a "DESTROY" fs).fs :=
    fun n hn => habsent n (List.mem_append_left _ hn)
  have hdirs : ∀ n ∈ dirsToRemove a, ([n] : FsPath) ∉ (destroy a "DESTROY" fs).fs :=
    fun n hn => habsent n (List.mem_append_right _ hn)
  have h1 : removeEach filesToRemove (destroy a "DESTROY" fs).fs =
      (destroy a "DESTROY" fs).fs := removeEach_noop hfiles
  have h2 : removeEach (dirsToRemove a) (destroy a "DESTROY" fs).fs =
      (destroy a "DESTROY" fs).fs := removeEach_noop hdirs
  generalize hres : (destroy a "DESTROY" fs).fs = r at h1 h2 ⊢
  simp [destroy, h1, h2]

theorem seqRun_mk_none (tr : Trace) (s : RunOut) :
    seqRun (tr, none) s = (tr ++ s.1, s.2) := rfl

theorem seqRun_mk_some (tr : Trace) (c : Nat) (s : RunOut) :
    seqRun (tr, some c) s = (tr, some c) := rfl

theorem noWrite_seqRun {p : FsPath} {r s : RunOut}
    (h1 : ∀ c, Action.writeFile p c ∉ r.1)
    (h2 : ∀ c, Action.writeFile p c ∉ s.1) :
    ∀ c, Action.writeFile p c ∉ (seqRun r s).1 := by
  obtain ⟨tr, e⟩ := r
  cases e with
  | none =>
    intro c hc
    rw [seqRun_mk_none] at hc
    rcases List.mem_append.mp hc with h | h
    · exact h1 c h
    · exact h2 c h
  | some k =>
    intro c hc
    rw [seqRun_mk_some] at hc
    exact h1 c hc

theorem noWrite_installRest (f : String → Bool) (l : List String) (p : FsPath) :
    ∀ c, Action.writeFile p c ∉ (installRest f l).1 := by
  induction l with
  | nil => intro c hc; simp [installRest] at hc
  | cons pkg rest ih =>
    intro c hc
    simp only [installRest] at hc
    split at hc
    · rcases List.mem_cons.mp hc with h | h
      · simp at h
      · exact ih c h
    · simp at hc

theorem installRest_trace_shape (f : String → Bool) (l : List String) {a : Action}
    (ha : a ∈ (installRest f l).1) :
    ∃ pkg, a = Action.runCmd [venv_pip, "install", pkg] := by
  induction l with
  | nil => simp [installRest] at ha
  | cons pkg rest ih =>
    simp only [installRest] at ha
    split at ha
    · rcases List.mem_cons.mp ha with h | h
      · exact ⟨pkg, h⟩
      · exact ih h
    · simp at ha
      exact ⟨pkg, ha⟩

theorem noWrite_cve (o : Oracle) (p : FsPath) :
    ∀ c, Action.writeFile p c ∉ (create_virtual_environment o).1 := by
  intro c hc
  simp [create_virtual_environment] at hc

theorem noMission_install (o : Oracle) :
    ∀ c, Action.writeFile ["MISSION.md"] c ∉ (install_dependencies o).1 := by
  intro c hc
  simp only [install_dependencies] at hc
  split at hc
  · rcases List.mem_cons.mp hc with h | h
    · simp at h
    · rcases List.mem_append.mp h with h2 | h2
      · exact noWrite_installRest _ _ _ c h2
      · simp [requirementsFileWrite] at h2
  · simp at hc

theorem noMission_structureWrites (nm : String) :
    ∀ c, Action.writeFile ["MISSION.md"] c ∉ structureWrites nm := by
  intro c hc
  simp [structureWrites] at hc

theorem noMission_setup (nm : String) (o : Oracle) :
    ∀ c, Action.writeFile ["MISSION.md"] c ∉ (setup_django_project nm o).1 := by
  refine noWrite_seqRun ?_ (noWrite_seqRun ?_ (noWrite_seqRun ?_ (noWrite_seqRun ?_
    (noWrite_seqRun ?_ (noWrite_seqRun ?_ ?_)))))
  · intro c hc; simp at hc
  · intro c hc; simp at hc
  · exact noMission_structureWrites nm
  · intro c hc; simp at hc
  · intro c hc; simp at hc
  · intro c hc; simp at hc
  · intro c hc; simp at hc

theorem noMission_pipeline (nm : String) (o : Oracle) :
    ∀ c, Action.writeFile ["MISSION.md"] c ∉ (launchPipeline nm o).1 :=
  noWrite_seqRun (noWrite_cve o _)
    (noWrite_seqRun (noMission_install o)
      (noWrite_seqRun (noMission_setup nm o)
        (noWrite_seqRun (fun c hc => by simp at hc)
          (fun c hc => by simp at hc))))

/-- C10: the mission document is created only on the interactive path.
When the project name is supplied as a command-line argument, launch never
writes MISSION.md; when the name is omitted (prompted), the very first
recorded action of the launch trace is the MISSION.md write, before any
pipeline stage runs — for every oracle, in particular also when environment
setup later fails — and the exit status is exactly that of the pipeline. -/
theorem C10_mission_only_interactive (nm promptedName goal : String) (o : Oracle) :
    (∀ c, Action.writeFile ["MISSION.md"] c ∉ (launch (some nm) promptedName goal o).1) ∧
    (launch none promptedName goal o).1 =
      Action.writeFile ["MISSION.md"] (mission_content promptedName goal) ::
        (launchPipeline promptedName o).1 ∧
    (launch none promptedName goal o).2 = (launchPipeline promptedName o).2 :=
  ⟨noMission_pipeline nm o, rfl, rfl⟩

/-- C6 counterexample: when the prerequisite Django install fails, the
dependency-install stage aborts having run only the single Django install
command — in particular without having written requirements.txt (the write
sits in a finally block that the prerequisite install is outside of). -/
theorem C6_counterexample_django_failure_skips_requirements :
    (install_dependencies okDjangoFails).2 = some 1 ∧
    requirementsFileWrite ∉ (install_dependencies okDjangoFails).1 ∧
    (install_dependencies okDjangoFails).1 =
      [Action.runCmd [venv_pip, "install", "django>=4.2.0"]] :=
  ⟨rfl, by decide, rfl⟩

/-- C6 amended: whenever the prerequisite Django install succeeds the
requirements record is persisted — both on success and before an abort
caused by a later package (the finally block) — and a later-package failure
still aborts the stage; when the prerequisite itself fails, the stage
aborts without writing requirements.txt. -/
theorem C6_amended_requirements_written_when_django_ok (o : Oracle)
    (h : o.pipOk ("django>=4.2.0") = true) :
    requirementsFileWrite ∈ (install_dependencies o).1 ∧
    ((installRest o.pipOk (requirementsList.drop 1)).2 = false →
      (install_dependencies o).2 = some 1) := by
  constructor
  · simp [install_dependencies, h]
  · intro hfail
    simp only [List.drop_one] at hfail
    simp [install_dependencies, h, hfail]

theorem C6_witness :
    requirementsFileWrite ∈ (install_dependencies okSecondPackageFails).1 ∧
      (install_dependencies okSecondPackageFails).2 = some 1 :=
  ⟨(C6_amended_requirements_written_when_django_ok okSecondPackageFails (by decide)).1,
    (C6_amended_requirements_written_when_django_ok okSecondPackageFails (by decide)).2
      (by decide)⟩

/-- C7 counterexample: with every operation succeeding except git init, the
run aborts (exit code 1) and neither migrations nor superuser creation are
ever invoked — git init failure is fatal, not warn-continue. -/
theorem C7_counterexample_git_failure_aborts :
    (launch (some ("blog")) ("x") ("g") okGitInitFails).2 = some 1 ∧
    Action.runCmd [venv_python, "manage.py", "migrate"] ∉
      (launch (some ("blog")) ("x") ("g") okGitInitFails).1 ∧
    Action.runCmd [venv_python, "manage.py", "createsuperuser", "--noinput"] ∉
      (launch (some ("blog")) ("x") ("g") okGitInitFails).1 :=
  ⟨rfl, by decide, by decide⟩

/-- C7 amended: a git init failure aborts the run instead of warn-continue:
git init is invoked with check=True and no handler, the raised error is
caught by the top-level handler of launch, the process exits with code 1,
and the post-init tasks (migrations, superuser creation) never run — for
every project name and prompt inputs. -/
theorem C7_amended_git_failure_fatal (nm promptedName goal : String) :
    (launch (some nm) promptedName goal okGitInitFails).2 = some 1 ∧
    Action.runCmd [venv_python, "manage.py", "migrate"] ∉
      (launch (some nm) promptedName goal okGitInitFails).1 ∧
    Action.runCmd [venv_python, "manage.py", "createsuperuser", "--noinput"] ∉
      (launch (some nm) promptedName goal okGitInitFails).1 := by
  have htr : (launch (some nm) promptedName goal okGitInitFails).1 =
      Action.runCmd ["python", "-m", "venv", "venv"] ::
        Action.runCmd [venv_pip, "install", "django>=4.2.0"] ::
          (((requirementsList.drop 1).map fun pkg => Action.runCmd [venv_pip, "install", pkg]) ++
            [requirementsFileWrite,
             Action.runCmd [venv_django, "startproject", "config", "."],
             Action.runCmd [venv_python, "manage.py", "startapp", nm]] ++
            structureWrites nm ++ [Action.runCmd ["git", "init"]]) := by rfl
  refine ⟨rfl, ?_, ?_⟩ <;>
    · rw [htr]
      intro hc
      simp [structureWrites, requirementsFileWrite, requirementsList,
        venv_pip, venv_django, venv_python] at hc

/-- C5 counterexample: launch applied to the reserved name config is not
rejected — there is no InvalidIdentifierError anywhere in the code.  With
all external operations succeeding, the run completes with exit code 0, its
first action is already pipeline work (environment setup), and artifacts
are materialized under the name config (startapp config is invoked and
config/urls.py is written). -/
theorem C5_counterexample_config_not_rejected :
    (launch (some ("config")) ("x") ("g") okAll).2 = none ∧
    (launch (some ("config")) ("x") ("g") okAll).1.head? =
      some (Action.runCmd ["python", "-m", "venv", "venv"]) ∧
    Action.runCmd [venv_python, "manage.py", "startapp", "config"] ∈
      (launch (some ("config")) ("x") ("g") okAll).1 ∧
    Action.writeFile ["config", "urls.py"] (app_urls_content ("config")) ∈
      (launch (some ("config")) ("x") ("g") okAll).1 :=
  ⟨rfl, rfl, by decide, by decide⟩

/-- C5 amended: launch performs no identifier validation at all.  Even for
the colliding input config the pipeline proceeds: the first action of the
run is environment setup, and structure generation materializes artifacts
under the name config; the collision can only surface later as an external
command failure, never as an InvalidIdentifierError before pipeline work. -/
theorem C5_amended_no_validation (promptedName goal : String) :
    (launch (some ("config")) promptedName goal okAll).2 = none ∧
    (launch (some ("config")) promptedName goal okAll).1.head? =
      some (Action.runCmd ["python", "-m", "venv", "venv"]) ∧
    Action.runCmd [venv_python, "manage.py", "startapp", "config"] ∈
      (launch (some ("config")) promptedName goal okAll).1 :=
  ⟨rfl, rfl,
    (by decide :
      Action.runCmd [venv_python, "manage.py", "startapp", "config"] ∈
        (launch (some ("config")) ("x") ("g") okAll).1)⟩

/-- C8: at project name blog the structure-generation writes resolve the
path blog/urls.py twice, with different contents: the app-urls template is
written first and then silently overwritten by the project-urls template
(whose own comment and companion write config/settings.py place it in the
config directory). -/
theorem C8_duplicate_write_blog_urls :
    (writePathsOf (setup_django_project ("blog") okAll).1).count (["blog", "urls.py"]) = 2 ∧
    app_urls_content ("blog") ≠ project_urls_content ("blog") :=
  ⟨by decide, by decide⟩

/-- C9: the generated pytest.ini names the settings module of the
identifier (in DJANGO_SETTINGS_MODULE and in addopts), while the settings
file the pipeline writes is config/settings.py; the identifier-named
settings path is created by the pipeline only when the identifier is the
string config. -/
theorem C9_pytest_settings_module (p promptedName goal : String) :
    pytest_ini_content p =
      "[pytest]\nDJANGO_SETTINGS_MODULE = " ++ (p ++ ".settings") ++
        "\npython_files = tests.py test_*.py *_tests.py\naddopts =\x20--ds=" ++
        (p ++ ".settings") ++ "\ntestpaths = tests\n" ∧
    Action.writeFile ["config", "settings.py"] (project_settings_content p) ∈
      (setup_django_project p okAll).1 ∧
    (([p, "settings.py"] : FsPath) ∈
        createdPathsOf (launch (some p) promptedName goal okAll).1 →
      p = "config") := by
  refine ⟨rfl, ?_, ?_⟩
  · have h : (setup_django_project p okAll).1 =
        [Action.runCmd [venv_django, "startproject", "config", "."],
         Action.runCmd [venv_python, "manage.py", "startapp", p]] ++
          structureWrites p ++
          [Action.runCmd ["git", "init"],
           Action.runCmd [venv_python, "manage.py", "migrate"],
           Action.runCmd [venv_python, "manage.py", "createsuperuser", "--noinput"],
           Action.writeFile ["behave.ini"] behave_ini_content] := rfl
    rw [h]
    simp [structureWrites]
  · intro h
    have hC : createdPathsOf (launch (some p) promptedName goal okAll).1 = cliCreated p := rfl
    rw [hC] at h
    simp [cliCreated] at h
    exact h

theorem C9_witness : ("config" : String) = "config" :=
  (C9_pytest_settings_module ("config") ("x") ("g")).2.2 (by decide)

/-- C3 counterexample: after a fully successful interactive launch of blog,
MISSION.md is among the created paths but survives a confirmed teardown of
blog — an orphaned launch-created file. -/
theorem C3_counterexample_mission_orphan :
    (launch none ("blog") ("ship it") okAll).2 = none ∧
    (["MISSION.md"] : FsPath) ∈ createdPathsOf (launch none ("blog") ("ship it") okAll).1 ∧
    (["MISSION.md"] : FsPath) ∈
      (destroy ("blog") ("DESTROY")
        (createdPathsOf (launch none ("blog") ("ship it") okAll).1)).fs :=
  ⟨rfl, by decide, by decide⟩

/-- C3 amended: a confirmed teardown after a fully successful interactive
launch removes every path the launch created except the mission document
MISSION.md and the VCS metadata directory .git, neither of which is in the
teardown candidate set. -/
theorem C3_amended_roundtrip_except_mission_and_git (a goal : String) (p : FsPath)
    (hp : p ∈ createdPathsOf (launch none a goal okAll).1)
    (hM : p ≠ ["MISSION.md"]) (hG : p ≠ [".git"]) :
    p ∉ (destroy a ("DESTROY") (createdPathsOf (launch none a goal okAll).1)).fs := by
  have hC : createdPathsOf (launch none a goal okAll).1 =
      ["MISSION.md"] :: cliCreated a := rfl
  rw [hC] at hp ⊢
  rcases List.mem_cons.mp hp with rfl | hp2
  · exact absurd rfl hM
  · simp only [cliCreated, List.mem_cons, List.not_mem_nil, or_false] at hp2
    have hnA : a ∈ filesToRemove ++ dirsToRemove a := by
      simp [filesToRemove, dirsToRemove]
    have hfA : ([a] : FsPath) ∈ (["MISSION.md"] : FsPath) :: cliCreated a := by
      simp [cliCreated]
    have hnVenv : ("venv" : String) ∈ filesToRemove ++ dirsToRemove a := by
      simp [filesToRemove, dirsToRemove]
    have hfVenv : (["venv"] : FsPath) ∈ (["MISSION.md"] : FsPath) :: cliCreated a := by
      simp [cliCreated]
    have hnTests : ("tests" : String) ∈ filesToRemove ++ dirsToRemove a := by
      simp [filesToRemove, dirsToRemove]
    have hfTests : (["tests"] : FsPath) ∈ (["MISSION.md"] : FsPath) :: cliCreated a := by
      simp [cliCreated]
    have hnFeat : ("features" : String) ∈ filesToRemove ++ dirsToRemove a := by
      simp [filesToRemove, dirsToRemove]
    have hfFeat : (["features"] : FsPath) ∈ (["MISSION.md"] : FsPath) :: cliCreated a := by
      simp [cliCreated]
    have hnConf : ("config" : String) ∈ filesToRemove ++ dirsToRemove a := by
      simp [filesToRemove, dirsToRemove]
    have hfConf : (["config"] : FsPath) ∈ (["MISSION.md"] : FsPath) :: cliCreated a := by
      simp [cliCreated]
    have hnMan : ("manage.py" : String) ∈ filesToRemove ++ dirsToRemove a := by
      simp [filesToRemove, dirsToRemove]
    have hfMan : (["manage.py"] : FsPath) ∈ (["MISSION.md"] : FsPath) :: cliCreated a := by
      simp [cliCreated]
    have hnReq : ("requirements.txt" : String) ∈ filesToRemove ++ dirsToRemove a := by
      simp [filesToRemove, dirsToRemove]
    have hfReq : (["requirements.txt"] : FsPath) ∈ (["MISSION.md"] : FsPath) :: cliCreated a := by
      simp [cliCreated]
    have hnSet : ("setup.py" : String) ∈ filesToRemove ++ dirsToRemove a := by
      simp [filesToRemove, dirsToRemove]
    have hfSet : (["setup.py"] : FsPath) ∈ (["MISSION.md"] : FsPath) :: cliCreated a := by
      simp [cliCreated]
    have hnBeh : ("behave.ini" : String) ∈ filesToRemove ++ dirsToRemove a := by
      simp [filesToRemove, dirsToRemove]
    have hfBeh : (["behave.ini"] : FsPath) ∈ (["MISSION.md"] : FsPath) :: cliCreated a := by
      simp [cliCreated]
    have hnDb : ("db.sqlite3" : String) ∈ filesToRemove ++ dirsToRemove a := by
      simp [filesToRemove, dirsToRemove]
    have hfDb : (["db.sqlite3"] : FsPath) ∈ (["MISSION.md"] : FsPath) :: cliCreated a := by
      simp [cliCreated]
    have hnPy : ("pytest.ini" : String) ∈ filesToRemove ++ dirsToRemove a := by
      simp [filesToRemove, dirsToRemove]
    have hfPy : (["pytest.ini"] : FsPath) ∈ (["MISSION.md"] : FsPath) :: cliCreated a := by
      simp [cliCreated]
    have hnGi : (".gitignore" : String) ∈ filesToRemove ++ dirsToRemove a := by
      simp [filesToRemove, dirsToRemove]
    have hfGi : ([".gitignore"] : FsPath) ∈ (["MISSION.md"] : FsPath) :: cliCreated a := by
      simp [cliCreated]
    rcases hp2 with rfl|rfl|rfl|rfl|rfl|rfl|rfl|rfl|rfl|rfl|rfl|rfl|rfl|rfl|rfl|rfl|rfl|rfl|rfl|rfl|rfl|rfl|rfl|rfl|rfl|rfl|rfl|rfl|rfl|rfl|rfl|rfl|rfl|rfl|rfl|rfl|rfl|rfl|rfl|rfl|rfl|rfl|rfl|rfl|rfl|rfl|rfl|rfl|rfl|rfl|rfl|rfl|rfl
    · exact destroy_removes a _ _ ("venv") hnVenv hfVenv (by decide)
    · exact destroy_removes a _ _ ("requirements.txt") hnReq hfReq (by decide)
    · exact destroy_removes a _ _ ("manage.py") hnMan hfMan (by decide)
    · exact destroy_removes a _ _ ("config") hnConf hfConf (by decide)
    · exact destroy_removes a _ _ a hnA hfA (by simp [List.isPrefixOf])
    · exact destroy_removes a _ _ ("tests") hnTests hfTests (by decide)
    · exact destroy_removes a _ _ ("tests") hnTests hfTests (by decide)
    · exact destroy_removes a _ _ ("tests") hnTests hfTests (by decide)
    · exact destroy_removes a _ _ ("tests") hnTests hfTests (by decide)
    · exact destroy_removes a _ _ ("pytest.ini") hnPy hfPy (by decide)
    · exact destroy_removes a _ _ ("setup.py") hnSet hfSet (by decide)
    · exact destroy_removes a _ _ a hnA hfA (by simp [List.isPrefixOf])
    · exact destroy_removes a _ _ a hnA hfA (by simp [List.isPrefixOf])
    · exact destroy_removes a _ _ a hnA hfA (by simp [List.isPrefixOf])
    · exact destroy_removes a _ _ a hnA hfA (by simp [List.isPrefixOf])
    · exact destroy_removes a _ _ a hnA hfA (by simp [List.isPrefixOf])
    · exact destroy_removes a _ _ a hnA hfA (by simp [List.isPrefixOf])
    · exact destroy_removes a _ _ a hnA hfA (by simp [List.isPrefixOf])
    · exact destroy_removes a _ _ a hnA hfA (by simp [List.isPrefixOf])
    · exact destroy_removes a _ _ a hnA hfA (by simp [List.isPrefixOf])
    · exact destroy_removes a _ _ a hnA hfA (by simp [List.isPrefixOf])
    · exact destroy_removes a _ _ a hnA hfA (by simp [List.isPrefixOf])
    · exact destroy_removes a _ _ ("config") hnConf hfConf (by decide)
    · exact destroy_removes a _ _ ("features") hnFeat hfFeat (by decide)
    · exact destroy_removes a _ _ ("features") hnFeat hfFeat (by decide)
    · exact destroy_removes a _ _ ("features") hnFeat hfFeat (by decide)
    · exact destroy_removes a _ _ ("features") hnFeat hfFeat (by decide)
    · exact destroy_removes a _ _ ("features") hnFeat hfFeat (by decide)
    · exact destroy_removes a _ _ ("features") hnFeat hfFeat (by decide)
    · exact destroy_removes a _ _ ("features") hnFeat hfFeat (by decide)
    · exact destroy_removes a _ _ a hnA hfA (by simp [List.isPrefixOf])
    · exact destroy_removes a _ _ a hnA hfA (by simp [List.isPrefixOf])
    · exact destroy_removes a _ _ a hnA hfA (by simp [List.isPrefixOf])
    · exact destroy_removes a _ _ a hnA hfA (by simp [List.isPrefixOf])
    · exact destroy_removes a _ _ a hnA hfA (by simp [List.isPrefixOf])
    · exact destroy_removes a _ _ a hnA hfA (by simp [List.isPrefixOf])
    · exact destroy_removes a _ _ a hnA hfA (by simp [List.isPrefixOf])
    · exact destroy_removes a _ _ a hnA hfA (by simp [List.isPrefixOf])
    · exact destroy_removes a _ _ a hnA hfA (by simp [List.isPrefixOf])
    · exact destroy_removes a _ _ a hnA hfA (by simp [List.isPrefixOf])
    · exact destroy_removes a _ _ a hnA hfA (by simp [List.isPrefixOf])
    · exact destroy_removes a _ _ a hnA hfA (by simp [List.isPrefixOf])
    · exact destroy_removes a _ _ a hnA hfA (by simp [List.isPrefixOf])
    · exact destroy_removes a _ _ a hnA hfA (by simp [List.isPrefixOf])
    · exact destroy_removes a _ _ a hnA hfA (by simp [List.isPrefixOf])
    · exact destroy_removes a _ _ a hnA hfA (by simp [List.isPrefixOf])
    · exact destroy_removes a _ _ a hnA hfA (by simp [List.isPrefixOf])
    · exact destroy_removes a _ _ a hnA hfA (by simp [List.isPrefixOf])
    · exact destroy_removes a _ _ (".gitignore") hnGi hfGi (by decide)
    · exact absurd rfl hG
    · exact destroy_removes a _ _ ("db.sqlite3") hnDb hfDb (by decide)
    · exact destroy_removes a _ _ ("behave.ini") hnBeh hfBeh (by decide)
    · exact destroy_removes a _ _ a hnA hfA (by simp [List.isPrefixOf])

theorem C3_witness :
    (["venv"] : FsPath) ∉
      (destroy ("blog") ("DESTROY")
        (createdPathsOf (launch none ("blog") ("g") okAll).1)).fs :=
  C3_amended_roundtrip_except_mission_and_git ("blog") ("g") ["venv"]
    (by decide) (by decide) (by decide)

end Scaffold
